import Mathlib

/-!
Shallow embedding of the query-to-plan orchestration pipeline of the
AI Meal Planner API (app/core/query_parser.py, app/core/llm_query_validator.py,
app/services/cache.py, app/core/meal_generator.py, app/api/routes.py).

Modelling conventions:
* Python strings are Lean `String`; regex scanning is embedded as explicit
  left-to-right scans over `List Char` with word boundaries, faithful to the
  concrete patterns appearing in the source.
* Model-completion calls (OpenAI) are external capabilities; they are passed
  in as explicit oracle values describing, for each call site, whether the
  call raised and what payload it returned.
* Wall-clock quantities (latencies, total durations) are either dropped or
  carried as oracle-supplied numbers; they take part in no control flow.
* Python `set` iteration order is unspecified; extracted keyword lists are
  modelled in the textual order of the source vocabulary literals, and all
  verified properties about these lists are membership based.
-/

namespace MealPlanner

/-! ## Characters and word-boundary keyword matching (re.search embeddings) -/

/-- Word characters for the regex `\b` boundary (ASCII fragment of `\w`). -/
def isWordChar (c : Char) : Bool := c.isAlphanum || c = '_'

/-- Whitespace characters for the regex `\s`. -/
def isSpaceChar (c : Char) : Bool := c = ' ' || c = '\t' || c = '\n' || c = '\r'

/-- Pattern elements covering exactly the regex constructs used by the source:
literal characters, the `[- ]` class produced by `restriction.replace("-", "[- ]")`,
the `.?` in `low.?cost`, `\s*`, `\s+` and `\d+`. -/
inductive Pat where
  | lit (c : Char)
  | hyphSp
  | anyOpt
  | ws
  | ws1
  | digits1
deriving DecidableEq

/-- Remainders of a string after consuming zero or more whitespace chars (`\s*`). -/
def wsRems : List Char → List (List Char)
  | [] => [[]]
  | c :: cs => (c :: cs) :: (if isSpaceChar c then wsRems cs else [])

/-- Remainders after consuming one or more whitespace chars (`\s+`). -/
def ws1Rems : List Char → List (List Char)
  | [] => []
  | c :: cs => if isSpaceChar c then wsRems cs else []

/-- Remainders after consuming one or more digits (`\d+`). -/
def digitsRems : List Char → List (List Char)
  | [] => []
  | c :: cs => if c.isDigit then cs :: digitsRems cs else []

/-- All remainders of `s` after a match of the pattern list (backtracking). -/
def matchPats : List Pat → List Char → List (List Char)
  | [], s => [s]
  | .lit c :: ps, s =>
      match s with
      | d :: rest => if d = c then matchPats ps rest else []
      | [] => []
  | .hyphSp :: ps, s =>
      match s with
      | d :: rest => if d = '-' || d = ' ' then matchPats ps rest else []
      | [] => []
  | .anyOpt :: ps, s =>
      matchPats ps s ++ (match s with
        | _ :: rest => matchPats ps rest
        | [] => [])
  | .ws :: ps, s => ((wsRems s).map (fun r => matchPats ps r)).flatten
  | .ws1 :: ps, s => ((ws1Rems s).map (fun r => matchPats ps r)).flatten
  | .digits1 :: ps, s => ((digitsRems s).map (fun r => matchPats ps r)).flatten

/-- The `\b` boundary after a match whose last character is a word character:
the remainder must be empty or start with a non-word character. -/
def boundaryOkAfter : List Char → Bool
  | [] => true
  | c :: _ => !(isWordChar c)

/-- Scan for any alternative of `alts` matching at some position with `\b` on
both sides (all alternatives start and end with word characters). `prevW` says
whether the character just before the current position is a word character. -/
def searchBounded (alts : List (List Pat)) : List Char → Bool → Bool
  | s, prevW =>
      (!prevW && alts.any (fun a => (matchPats a s).any boundaryOkAfter))
      || (match s with
          | [] => false
          | c :: cs => searchBounded alts cs (isWordChar c))

/-- Literal pattern from a string (each character matched exactly). -/
def litPat (s : String) : List Pat := s.data.map Pat.lit

/-- Keyword pattern where each `-` may match a hyphen or a space, embedding
`re.escape(kw.replace("-", "[- ]"))`. -/
def kwToPats (s : String) : List Pat :=
  s.data.map (fun c => if c = '-' then Pat.hyphSp else Pat.lit c)

/-- Whether keyword `kw` occurs in `q` as a whole word (`\b...\b`), with `-`
in the keyword matching hyphen or space. -/
def kwFound (kw : String) (q : List Char) : Bool :=
  searchBounded [kwToPats kw] q false

/-! ## QueryParser._extract_duration -/

/-- Read a maximal digit run as a decimal number, returning the value and the
remainder (embeds the capture group `(\d+)` followed by a non-digit context). -/
def readDigits : List Char → Nat → Nat × List Char
  | c :: cs, acc =>
      if c.isDigit then readDigits cs (acc * 10 + (c.toNat - 48)) else (acc, c :: cs)
  | [], acc => (acc, [])

/-- Remainders after consuming zero or more characters of the class `[\s-]`. -/
def spaceHyphRems : List Char → List (List Char)
  | [] => [[]]
  | c :: cs => (c :: cs) :: (if isSpaceChar c || c = '-' then spaceHyphRems cs else [])

/-- Whether `l` is a literal prefix of `s`. -/
def litHere : List Char → List Char → Bool
  | [], _ => true
  | _ :: _, [] => false
  | c :: cs, d :: ds => c = d && litHere cs ds

/-- Drop a literal prefix of `s`, if present. -/
def dropLit : List Char → List Char → Option (List Char)
  | [], s => some s
  | _ :: _, [] => none
  | c :: cs, d :: ds => if c = d then dropLit cs ds else none

/-- Leftmost scan for `(\d+)` followed by a context accepted by `tail`,
returning the captured number (embeds `re.search` for the duration patterns). -/
def scanNumThen (tail : List Char → Bool) : List Char → Option Nat
  | [] => none
  | c :: cs =>
      if c.isDigit then
        let r := readDigits (c :: cs) 0
        if tail r.2 then some r.1 else scanNumThen tail cs
      else scanNumThen tail cs

/-- Context for duration pattern `(\d+)[\s-]*day`. -/
def dayTail (rest : List Char) : Bool :=
  (spaceHyphRems rest).any (fun r => litHere ['d', 'a', 'y'] r)

/-- Context for duration pattern `(\d+)\s*week`. -/
def weekTail (rest : List Char) : Bool :=
  (wsRems rest).any (fun r => litHere ['w', 'e', 'e', 'k'] r)

/-- Plain substring occurrence (pattern `week` with no boundaries). -/
def hasSub (pat : List Char) : List Char → Bool
  | [] => litHere pat []
  | c :: cs => litHere pat (c :: cs) || hasSub pat cs

/-- Alternatives for `\b(next|this|for the|for a)\s+week\b`. -/
def nextWeekAlts : List (List Pat) :=
  [litPat "next" ++ [Pat.ws1] ++ litPat "week",
   litPat "this" ++ [Pat.ws1] ++ litPat "week",
   litPat "for the" ++ [Pat.ws1] ++ litPat "week",
   litPat "for a" ++ [Pat.ws1] ++ litPat "week"]

/-- After `day`, an optional `s` and then a `\b` boundary (regex `days?\b`). -/
def daysSuffixOk (r : List Char) : Bool :=
  (match r with
   | 's' :: r2 => boundaryOkAfter r2
   | _ => false)
  || boundaryOkAfter r

/-- Match `(for|over)\s+(\d+)\s+days?\b` starting exactly at `s`, returning
the captured number of days. -/
def forOverDaysAt (s : List Char) : Option Nat :=
  let afterKw := match dropLit ['f', 'o', 'r'] s with
    | some r => some r
    | none => dropLit ['o', 'v', 'e', 'r'] s
  match afterKw with
  | none => none
  | some r =>
      (ws1Rems r).findSome? (fun r2 =>
        match r2 with
        | c :: cs =>
            if c.isDigit then
              let nr := readDigits (c :: cs) 0
              if (ws1Rems nr.2).any (fun r4 =>
                    match dropLit ['d', 'a', 'y'] r4 with
                    | some r5 => daysSuffixOk r5
                    | none => false)
              then some nr.1 else none
            else none
        | [] => none)

/-- Leftmost scan for `\b(for|over)\s+(\d+)\s+days?\b`. -/
def scanForOver : List Char → Bool → Option Nat
  | s, prevW =>
      (if !prevW then forOverDaysAt s else none).orElse (fun _ =>
        match s with
        | [] => none
        | c :: cs => scanForOver cs (isWordChar c))

/-- Embeds `QueryParser._extract_duration`: first match among the ordered
patterns wins; returns `(duration, was_explicitly_specified)`, defaulting to
`(7, false)` when nothing matches. -/
def extract_duration (q : List Char) : Nat × Bool :=
  match scanNumThen dayTail q with
  | some n => (n, true)
  | none =>
    match scanNumThen weekTail q with
    | some n => (n * 7, true)
    | none =>
      if hasSub ['w', 'e', 'e', 'k'] q then (7, true)
      else if searchBounded nextWeekAlts q false then (7, true)
      else
        match scanForOver q false with
        | some n => (n, true)
        | none => (7, false)

/-! ## Keyword vocabularies and the three set-field extractors -/

/-- `QueryParser.DIETARY_RESTRICTIONS`, in source-literal order (the Python
value is a `set`, whose iteration order is unspecified). -/
def DIETARY_RESTRICTIONS : List String :=
  ["vegan", "vegetarian", "pescatarian", "paleo", "keto",
   "gluten-free", "dairy-free", "nut-free", "soy-free",
   "halal", "kosher", "mediterranean", "dash"]

/-- `QueryParser.PREFERENCES`, in source-literal order. -/
def PREFERENCES : List String :=
  ["low-carb", "high-protein", "low-fat", "low-sodium"]

/-- Embeds `QueryParser._extract_dietary_restrictions`. -/
def extract_dietary_restrictions (q : List Char) : List String :=
  DIETARY_RESTRICTIONS.filter (fun r => kwFound r q)

/-- Embeds `QueryParser._extract_preferences`. -/
def extract_preferences (q : List Char) : List String :=
  PREFERENCES.filter (fun p => kwFound p q)

/-- Alternatives of `\b(budget|cheap|affordable|inexpensive|low.?cost)\b`. -/
def budgetAlts : List (List Pat) :=
  [litPat "budget", litPat "cheap", litPat "affordable", litPat "inexpensive",
   litPat "low" ++ [Pat.anyOpt] ++ litPat "cost"]

/-- Alternatives of `\b(quick|fast|15\s*min|under\s*\d+\s*min|quickly|rapid)\b`. -/
def quickAlts : List (List Pat) :=
  [litPat "quick", litPat "fast",
   litPat "15" ++ [Pat.ws] ++ litPat "min",
   litPat "under" ++ [Pat.ws, Pat.digits1, Pat.ws] ++ litPat "min",
   litPat "quickly", litPat "rapid"]

/-- Alternatives of `\b(easy|simple|simple|straightforward)\b` (the duplicated
`simple` is kept as in the source). -/
def easyAlts : List (List Pat) :=
  [litPat "easy", litPat "simple", litPat "simple", litPat "straightforward"]

/-- Alternatives of `\b(healthy|nutritious|wholesome)\b`. -/
def healthyAlts : List (List Pat) :=
  [litPat "healthy", litPat "nutritious", litPat "wholesome"]

/-- Embeds `QueryParser._extract_special_requirements`: four independent
keyword families appended in source order. -/
def extract_special_requirements (q : List Char) : List String :=
  (if searchBounded budgetAlts q false then ["budget-friendly"] else [])
  ++ (if searchBounded quickAlts q false then ["quick"] else [])
  ++ (if searchBounded easyAlts q false then ["easy"] else [])
  ++ (if searchBounded healthyAlts q false then ["healthy"] else [])

/-! ## Warnings and conflict validation -/

/-- A warning record `{category, value}`. -/
structure Warning where
  category : String
  value : String
deriving DecidableEq

/-- The conflict table of `QueryParser._validate_restrictions`, in source
order, with the exact error messages. -/
def conflictPairs : List ((String × String) × String) :=
  [(("vegan", "pescatarian"),
    "Vegan and pescatarian are conflicting - vegan excludes all animal products including fish"),
   (("vegan", "vegetarian"),
    "Vegan and vegetarian are conflicting - please choose one. Vegan excludes all animal products, vegetarian excludes meat but allows dairy/eggs"),
   (("pescatarian", "vegetarian"),
    "Pescatarian and vegetarian are conflicting - pescatarian includes fish, vegetarian does not. Please choose one")]

/-- Embeds `QueryParser._validate_restrictions`: the first conflicting pair
raises `ValueError(message)` (modelled as `Except.error`); the locally built
warning list is discarded by the raise, so a successful run returns `[]`. -/
def validate_restrictions (restrictions : List String) : Except String (List Warning) :=
  match conflictPairs.find?
      (fun c => restrictions.contains c.1.1 && restrictions.contains c.1.2) with
  | some c => .error c.2
  | none => .ok []

/-! ## LLM validator (app/core/llm_query_validator.py) -/

/-- Usage metrics of one model completion (`response.usage`). -/
structure Usage where
  prompt_tokens : Nat
  completion_tokens : Nat
  total_tokens : Nat
deriving DecidableEq

/-- The `llm_logging` record built by the validator and the parser. Wall-clock
fields that take part in no control flow (`regex_latency_ms`,
`total_duration_ms`) are omitted; `llm_latency_ms` is oracle-supplied. -/
structure LLMLogging where
  tokens_prompt : Nat
  tokens_completion : Nat
  tokens_total : Nat
  llm_latency_ms : Nat
  enabled : Bool
  error : Option String
deriving DecidableEq

/-- The `validated` object of the model response (each field read with
`.get(key, default)`, so fields are optional). -/
structure ValidatedOut where
  duration_days : Option Nat
  dietary_restrictions : Option (List String)
  preferences : Option (List String)
  special_requirements : Option (List String)
deriving DecidableEq

/-- What `validate_and_enhance` returns to the parser. -/
structure ValidatorResult where
  validated : ValidatedOut
  additional_warnings : List Warning
  llm_logging : LLMLogging
deriving DecidableEq

/-- Outcome of the structured model call inside the validator: either a parsed
response (validated object, additional warnings, token usage) or a raised
exception (timeout, malformed output, schema violation). -/
inductive ModelCall where
  | ok (validated : ValidatedOut) (additional_warnings : List Warning) (usage : Usage)
  | exn (msg : String)
deriving DecidableEq

/-- Embeds `LLMQueryValidator.validate_and_enhance`. `apiKeyConfigured` is
`settings.openai_api_key is not None`; `call` is the model-call outcome;
`latency` the measured call latency. On any model-call failure the original
extraction is returned unchanged with an error marker in `llm_logging`;
the function is total (it never raises). -/
def validate_and_enhance (apiKeyConfigured : Bool) (initialExt : ValidatedOut)
    (call : ModelCall) (latency : Nat) : ValidatorResult :=
  if !apiKeyConfigured then
    { validated := initialExt, additional_warnings := [],
      llm_logging :=
        { tokens_prompt := 0, tokens_completion := 0, tokens_total := 0,
          llm_latency_ms := 0, enabled := false, error := none } }
  else
    match call with
    | .ok v w u =>
        { validated := v, additional_warnings := w,
          llm_logging :=
            { tokens_prompt := u.prompt_tokens, tokens_completion := u.completion_tokens,
              tokens_total := u.total_tokens, llm_latency_ms := latency,
              enabled := true, error := none } }
    | .exn m =>
        { validated := initialExt, additional_warnings := [],
          llm_logging :=
            { tokens_prompt := 0, tokens_completion := 0, tokens_total := 0,
              llm_latency_ms := latency, enabled := true, error := some m } }

/-! ## QueryParser.parse -/

/-- The regex-phase extraction of `parse` (before capping and validation). -/
structure RegexExtraction where
  duration0 : Nat
  explicit : Bool
  dietary : List String
  prefs : List String
  special : List String
deriving DecidableEq

/-- Runs the four regex extractors on the lowercased query. -/
def regexExtract (query : String) : RegexExtraction :=
  let q := query.data.map Char.toLower
  let d := extract_duration q
  { duration0 := d.1, explicit := d.2,
    dietary := extract_dietary_restrictions q,
    prefs := extract_preferences q,
    special := extract_special_requirements q }

/-- Duration after the 7-day cap applied by `parse`. -/
def regexDuration (e : RegexExtraction) : Nat :=
  if 7 < e.duration0 then 7 else e.duration0

def wDaysUnspecified : Warning :=
  ⟨"days_unspecified", "Duration not specified. Defaulting to 7 days."⟩

def wDaysCapped (n : Nat) : Warning :=
  ⟨"days_capped_at_7", "Requested " ++ toString n ++ " days. Limited to 7 days maximum."⟩

def wDietaryUnspecified : Warning :=
  ⟨"dietary_restrictions_unspecified", "No dietary restrictions specified. Generating general meal plan."⟩

def wPreferencesUnspecified : Warning :=
  ⟨"preferences_unspecified", "No nutritional preferences specified. Generating balanced meal plan."⟩

def wSpecialUnspecified : Warning :=
  ⟨"special_requirements_unspecified", "No special requirements specified. Generating standard meal plan."⟩

/-- The warnings accumulated by the regex phase of `parse`, in emission order. -/
def regexWarnings (e : RegexExtraction) : List Warning :=
  (if e.explicit then [] else [wDaysUnspecified])
  ++ (if 7 < e.duration0 then [wDaysCapped e.duration0] else [])
  ++ (if e.dietary.isEmpty then [wDietaryUnspecified] else [])
  ++ (if e.prefs.isEmpty then [wPreferencesUnspecified] else [])
  ++ (if e.special.isEmpty then [wSpecialUnspecified] else [])

/-- The `initial_extraction_for_llm` dict passed to the validator (post-cap
duration and the three regex lists, without warnings). -/
def initialExtraction (query : String) : ValidatedOut :=
  let e := regexExtract query
  { duration_days := some (regexDuration e),
    dietary_restrictions := some e.dietary,
    preferences := some e.prefs,
    special_requirements := some e.special }

/-- Structured parameters extracted from a user query
(`ParsedQueryParams` dataclass). `llm_logging := none` models the empty dict
(falsy in Python); `parse` always fills it with a non-empty record. -/
structure ParsedQueryParams where
  duration_days : Nat
  dietary_restrictions : List String
  preferences : List String
  special_requirements : List String
  warnings : List Warning
  llm_logging : Option LLMLogging
deriving DecidableEq

/-- The initial `llm_logging` dict of `parse` (all counters zero,
`enabled: False`). -/
def baseLLMLogging : LLMLogging :=
  { tokens_prompt := 0, tokens_completion := 0, tokens_total := 0,
    llm_latency_ms := 0, enabled := false, error := none }

/-- One-directional set merge of `parse`: only items the model found but the
regex missed are added (`list(set(initial) | added)` is modelled with a fixed
first-occurrence order; Python set order is unspecified and every verified
property is membership based). -/
def mergeAdd (initialL validatedL : List String) : List String :=
  let added := validatedL.filter (fun x => !(initialL.contains x))
  if added.isEmpty then initialL else initialL.dedup ++ added.dedup

/-- The merge step of `parse` when LLM validation is enabled: duration is
overwritten only when the regex duration (post-cap) is out of the 1..7 range,
set fields are add-only, model warnings are deduplicated by category against
the regex warnings. -/
def mergeResult (e : RegexExtraction) (vres : ValidatorResult) (cw : List Warning) :
    ParsedQueryParams :=
  let duration := regexDuration e
  let vd := vres.validated.duration_days.getD duration
  let final_duration := if vd ≠ duration ∧ (7 < duration ∨ duration < 1) then vd else duration
  let warnings := regexWarnings e ++ cw
  let cats := warnings.map (fun w => w.category)
  let neww := vres.additional_warnings.filter (fun w => !(cats.contains w.category))
  { duration_days := final_duration,
    dietary_restrictions := mergeAdd e.dietary (vres.validated.dietary_restrictions.getD e.dietary),
    preferences := mergeAdd e.prefs (vres.validated.preferences.getD e.prefs),
    special_requirements := mergeAdd e.special (vres.validated.special_requirements.getD e.special),
    warnings := warnings ++ neww,
    llm_logging := some vres.llm_logging }

/-- The result of `parse` when LLM validation is disabled. -/
def plainParams (e : RegexExtraction) (cw : List Warning) : ParsedQueryParams :=
  { duration_days := regexDuration e,
    dietary_restrictions := e.dietary,
    preferences := e.prefs,
    special_requirements := e.special,
    warnings := regexWarnings e ++ cw,
    llm_logging := some baseLLMLogging }

/-- Embeds `QueryParser.parse`. `enableLLM` is `settings.enable_llm_validation`;
`vres` is the value returned by the validator for this query (the validator is
total, so the `except` branch of `parse` is unreachable through it). A
conflicting restriction pair raises `ValueError` (modelled as `Except.error`)
before any validation or generation. -/
def parse (enableLLM : Bool) (vres : ValidatorResult) (query : String) :
    Except String ParsedQueryParams :=
  match validate_restrictions (regexExtract query).dietary with
  | .error m => .error m
  | .ok cw =>
      if enableLLM then .ok (mergeResult (regexExtract query) vres cw)
      else .ok (plainParams (regexExtract query) cw)

/-! ## CacheService._make_cache_key (app/services/cache.py) -/

/-- Lexicographic code-point comparison of character lists (the order Python
`sorted` uses on strings), written as an executable Boolean function. -/
def charListLe : List Char → List Char → Bool
  | [], _ => true
  | _ :: _, [] => false
  | c :: cs, d :: ds =>
      if c = d then charListLe cs ds else decide (c.toNat < d.toNat)

/-- Lexicographic order on strings as a decidable relation. -/
def strLe (a b : String) : Prop := charListLe a.data b.data = true

instance : DecidableRel strLe := fun a b =>
  inferInstanceAs (Decidable (charListLe a.data b.data = true))

/-- Lexicographic string sort, embedding Python `sorted` on strings. -/
def sortStrings (l : List String) : List String :=
  l.insertionSort strLe

/-- JSON string literal (the cached vocabulary strings need no escaping). -/
def jsonStr (s : String) : String := "\"" ++ s ++ "\""

/-- JSON array of strings with the default `json.dumps` separators. -/
def jsonStrList (l : List String) : String :=
  "[" ++ String.intercalate ", " (l.map jsonStr) ++ "]"

/-- Embeds `CacheService._make_cache_key` up to the final `hashlib.md5`: the
deterministic canonical serialization `json.dumps({...}, sort_keys=True)` of
the sorted lists and the duration. The stored key is the md5 hex digest of
exactly this string; md5 is a fixed deterministic function, so two requests
obtain the same cache key whenever their canonical serializations are equal,
and distinct serializations give distinct keys for these inputs. -/
def make_cache_key (dietary_restrictions preferences : List String)
    (duration_days : Nat) (special_requirements : List String) : String :=
  "\x7b\"dietary_restrictions\": " ++ jsonStrList (sortStrings dietary_restrictions)
  ++ ", \"duration_days\": " ++ toString duration_days
  ++ ", \"preferences\": " ++ jsonStrList (sortStrings preferences)
  ++ ", \"special_requirements\": " ++ jsonStrList (sortStrings special_requirements)
  ++ "\x7d"

/-! ## Data model of the generated plan (app/models/schemas.py) -/

/-- Nutritional info. `protein`, `carbs`, `fat` are floats in the source; no
claimed property performs float arithmetic on them, so their numeric values
are carried as naturals (the placeholder and default values are integral). -/
structure NutritionalInfo where
  calories : Nat
  protein : Nat
  carbs : Nat
  fat : Nat
deriving DecidableEq

/-- Individual meal/recipe. -/
structure Meal where
  meal_type : String
  recipe_name : String
  description : String
  ingredients : List String
  nutritional_info : NutritionalInfo
  preparation_time : String
  instructions : String
  source : String
deriving DecidableEq

/-- Meal plan for a single day. -/
structure DayMealPlan where
  day : Nat
  date : String
  meals : List Meal
deriving DecidableEq

/-- Summary statistics. -/
structure MealPlanSummary where
  total_meals : Nat
  dietary_compliance : List String
  estimated_cost : String
  avg_prep_time : String
deriving DecidableEq

/-- Aggregated meal-generation `llm_logging` (the `per_day_logging` list of
per-day copies is omitted; it is write-only diagnostics). -/
structure MealGenLogging where
  tokens_prompt : Nat
  tokens_completion : Nat
  tokens_total : Nat
  llm_latency_ms : Nat
  days_generated : Nat
deriving DecidableEq

/-- Combined usage metrics (`total_llm_logging`; the wall-clock
`total_duration_ms` field is omitted). -/
structure TotalLogging where
  tokens_prompt : Nat
  tokens_completion : Nat
  tokens_total : Nat
  llm_latency_ms : Nat
  query_validation_tokens : Nat
  meal_generation_tokens : Nat
  query_validation_time_ms : Nat
  meal_generation_time_ms : Nat
deriving DecidableEq

/-- Response schema for meal plan generation. -/
structure MealPlanResponse where
  meal_plan_id : String
  duration_days : Nat
  generated_at : String
  meal_plan : List DayMealPlan
  summary : MealPlanSummary
  warnings : List Warning
  query_validation_llm_logging : Option LLMLogging
  meal_generation_llm_logging : Option MealGenLogging
  total_llm_logging : Option TotalLogging
deriving DecidableEq

/-! ## Dates (datetime.utcnow + timedelta, strftime "%Y-%m-%d") -/

/-- Gregorian civil date from days since 1970-01-01 (the standard
days-to-civil algorithm; all intermediate values are non-negative). -/
def civilFromDays (z0 : Nat) : Nat × Nat × Nat :=
  let z := z0 + 719468
  let era := z / 146097
  let doe := z - era * 146097
  let yoe := (doe - doe / 1460 + doe / 36524 - doe / 146096) / 365
  let y := yoe + era * 400
  let doy := doe - (365 * yoe + yoe / 4 - yoe / 100)
  let mp := (5 * doy + 2) / 153
  let d := doy - (153 * mp + 2) / 5 + 1
  let m := if mp < 10 then mp + 3 else mp - 9
  (if m ≤ 2 then y + 1 else y, m, d)

/-- Zero-pad to two digits. -/
def pad2 (n : Nat) : String := if n < 10 then "0" ++ toString n else toString n

/-- `strftime("%Y-%m-%d")` on a day count since the epoch (years of interest
are four digits wide). -/
def formatYMD (z : Nat) : String :=
  let c := civilFromDays z
  toString c.1 ++ "-" ++ pad2 c.2.1 ++ "-" ++ pad2 c.2.2

/-! ## MealPlanGenerator (app/core/meal_generator.py) -/

/-- An untrusted meal object from a model response. `good m` means
`Meal(**meal_data)` (after the type normalizations) succeeds and produces `m`;
`bad t` means it raises, with `t = meal_data.get("meal_type")`. -/
inductive Payload where
  | good (m : Meal)
  | bad (meal_type : Option String)
deriving DecidableEq

/-- Per-call metrics attached by `LLMService.generate_day_plan`
(`_llm_metrics`, absent when the response carried none). -/
structure LLMMetrics where
  tokens_prompt : Nat
  tokens_completion : Nat
  tokens_total : Nat
  llm_latency_ms : Nat
deriving DecidableEq

def zeroMetrics : LLMMetrics :=
  { tokens_prompt := 0, tokens_completion := 0, tokens_total := 0, llm_latency_ms := 0 }

/-- Outcome of one whole-day model call: the parsed `meals` list and metrics. -/
structure DayCallResult where
  meals : List Payload
  metrics : Option LLMMetrics
deriving DecidableEq

/-- External environment of one `generate` run: the cache lookup result for
the request constraints, the outcome of the day-level model call per day
index, the outcome of the single-meal fallback call per (day index, slot),
and the generation timestamp. Exceptions are `Except.error`. -/
structure GenEnv where
  cached : Option MealPlanResponse
  dayCall : Nat → Except String DayCallResult
  singleMeal : Nat → Nat → Except String Payload
  genAt : String

/-- A model call issued by the generator (for stating which calls a run
performs). -/
inductive GenCall where
  | day (idx : Nat)
  | single (idx slot : Nat)
deriving DecidableEq

/-- Python `str.title()` on the alphabetic meal-type strings. -/
def pyTitle (s : String) : String :=
  String.mk (go s.data true)
where
  go : List Char → Bool → List Char
    | [], _ => []
    | c :: cs, startWord =>
        (if c.isAlpha then (if startWord then c.toUpper else c.toLower) else c)
          :: go cs (!c.isAlpha)

/-- Embeds `MealPlanGenerator._placeholder_recipe`: the deterministic
last-resort placeholder meal. -/
def placeholder_recipe (meal_type : String) : Meal :=
  { meal_type := meal_type,
    recipe_name := "Simple " ++ pyTitle meal_type ++ " Bowl",
    description := "A simple placeholder recipe.",
    ingredients := ["ingredient 1", "ingredient 2"],
    nutritional_info := { calories := 300, protein := 12, carbs := 40, fat := 8 },
    preparation_time := "15 mins",
    instructions := "Mix ingredients and serve.",
    source := "Placeholder" }

/-- The per-meal fallback: one single-meal model call; if it raises or its
payload fails `Meal(**data)` validation, the placeholder for `meal_type` is
used. `meal_type` is the requested type (failure path) or
`meal_data.get("meal_type", "lunch")` (primary path). -/
def fallbackMealFor (env : GenEnv) (dayIdx slot : Nat) (meal_type : String) :
    Meal × List GenCall :=
  match env.singleMeal dayIdx slot with
  | .ok (.good m) => (m, [.single dayIdx slot])
  | .ok (.bad _) => (placeholder_recipe meal_type, [.single dayIdx slot])
  | .error _ => (placeholder_recipe meal_type, [.single dayIdx slot])

/-- Embeds `MealPlanGenerator._generate_day_plan`: one day-level model call;
on success each returned meal object is validated, with the per-meal fallback
for invalid ones; if the day call raises, every required meal type is
generated through the single-meal path with the placeholder as last resort.
Total by construction — it never propagates an error. Returns the day plan,
the day metrics, and the model calls issued. -/
def generate_day_plan (env : GenEnv) (day_index : Nat) (date : String)
    (meal_types : List String) : DayMealPlan × Option LLMMetrics × List GenCall :=
  match env.dayCall day_index with
  | .ok r =>
      let slotMeals := r.meals.enum.map (fun p =>
        match p.2 with
        | .good m => ((m : Meal), ([] : List GenCall))
        | .bad t => fallbackMealFor env day_index p.1 (t.getD "lunch"))
      (⟨day_index, date, slotMeals.map (fun x => x.1)⟩, r.metrics,
        .day day_index :: (slotMeals.map (fun x => x.2)).flatten)
  | .error _ =>
      let slotMeals := meal_types.enum.map (fun p => fallbackMealFor env day_index p.1 p.2)
      (⟨day_index, date, slotMeals.map (fun x => x.1)⟩, some zeroMetrics,
        .day day_index :: (slotMeals.map (fun x => x.2)).flatten)

/-- The deterministic meal-type selection of `generate`: breakfast, lunch,
dinner every day, plus a snack exactly on even day indices. -/
def mealTypesForDay (day_index : Nat) : List String :=
  ["breakfast", "lunch", "dinner"] ++ (if day_index % 2 == 0 then ["snack"] else [])

/-- First integer occurring in a string (`re.search(r"(\d+)", s)`). -/
def firstInt : List Char → Option Nat
  | [] => none
  | c :: cs => if c.isDigit then some (readDigits (c :: cs) 0).1 else firstInt cs

/-- Embeds `MealPlanGenerator._generate_summary`. The source cost rates are
the floats 2.0/3.5 (budget-friendly or not) and the span is rate..rate+1.5;
they are exact halves, so `int(total * rate)` is computed in half units. -/
def generate_summary (day_plans : List DayMealPlan) (params : ParsedQueryParams) :
    MealPlanSummary :=
  let total_meals := (day_plans.map (fun d => d.meals.length)).sum
  let times := (day_plans.map (fun d => d.meals.filterMap (fun m => firstInt m.preparation_time.data))).flatten
  let avg_time := if times.length ≠ 0 then toString (times.sum / times.length) ++ " mins" else "25 mins"
  let baseHalf := if params.special_requirements.contains "budget-friendly" then 4 else 7
  let min_cost := total_meals * baseHalf / 2
  let max_cost := total_meals * (baseHalf + 3) / 2
  { total_meals := total_meals,
    dietary_compliance := params.dietary_restrictions ++ params.preferences,
    estimated_cost := "$" ++ toString min_cost ++ "-" ++ toString max_cost,
    avg_prep_time := avg_time }

/-- Fold the per-day metrics into the aggregated meal-generation logging
(`if day_llm_metrics:` — the fallback zero record is a non-empty, truthy
dict, so it is counted). -/
def aggMetrics (ms : List (Option LLMMetrics)) : MealGenLogging :=
  ms.foldl
    (fun acc m =>
      match m with
      | some mm =>
          { tokens_prompt := acc.tokens_prompt + mm.tokens_prompt,
            tokens_completion := acc.tokens_completion + mm.tokens_completion,
            tokens_total := acc.tokens_total + mm.tokens_total,
            llm_latency_ms := acc.llm_latency_ms + mm.llm_latency_ms,
            days_generated := acc.days_generated + 1 }
      | none => acc)
    { tokens_prompt := 0, tokens_completion := 0, tokens_total := 0,
      llm_latency_ms := 0, days_generated := 0 }

/-- The combined `total_llm_logging` record of `generate`. -/
def totalLogging (qv : Option LLMLogging) (mg : MealGenLogging) : Option TotalLogging :=
  if qv.isSome || 0 < mg.tokens_total then
    let qp := match qv with | some l => l.tokens_prompt | none => 0
    let qc := match qv with | some l => l.tokens_completion | none => 0
    let qt := match qv with | some l => l.tokens_total | none => 0
    let qm := match qv with | some l => l.llm_latency_ms | none => 0
    some
      { tokens_prompt := qp + mg.tokens_prompt,
        tokens_completion := qc + mg.tokens_completion,
        tokens_total := qt + mg.tokens_total,
        llm_latency_ms := qm + mg.llm_latency_ms,
        query_validation_tokens := qt,
        meal_generation_tokens := mg.tokens_total,
        query_validation_time_ms := qm,
        meal_generation_time_ms := mg.llm_latency_ms }
  else none

/-- Embeds `MealPlanGenerator.generate`. `today` is the UTC day count at
generation time (the source recomputes `datetime.utcnow()` per day; the model
treats the run as instantaneous); `planId` the generated uuid. On a cache hit
the stored response is returned with only the current request
query-validation logging merged in (when that dict is non-empty), and no
model call is issued. On a miss, days 1..duration are generated in order.
The trailing cache write is swallowed on failure and has no effect on the
returned value, so it is not modelled. Also returns the list of model calls
the run issued. -/
def generate (env : GenEnv) (today : Nat) (planId : String)
    (params : ParsedQueryParams) : MealPlanResponse × List GenCall :=
  match env.cached with
  | some stored =>
      (match params.llm_logging with
       | some l => { stored with query_validation_llm_logging := some l }
       | none => stored, [])
  | none =>
      let dayResults := (List.range' 1 params.duration_days).map
        (fun i => generate_day_plan env i (formatYMD (today + (i - 1))) (mealTypesForDay i))
      let day_plans := dayResults.map (fun r => r.1)
      let mealLog := aggMetrics (dayResults.map (fun r => r.2.1))
      let summary := generate_summary day_plans params
      ({ meal_plan_id := planId,
         duration_days := params.duration_days,
         generated_at := env.genAt,
         meal_plan := day_plans,
         summary := summary,
         warnings := params.warnings,
         query_validation_llm_logging := params.llm_logging,
         meal_generation_llm_logging := if 0 < mealLog.tokens_total then some mealLog else none,
         total_llm_logging := totalLogging params.llm_logging mealLog },
       (dayResults.map (fun r => r.2.2)).flatten)

/-! ## Route handler (app/api/routes.py) -/

/-- An HTTP error response raised by the route. -/
structure HTTPError where
  status : Nat
  detail : String
deriving DecidableEq

/-- Embeds the `generate_meal_plan` route handler: `ValueError` from parsing
maps to a 400 client error with the message in the detail; a successful parse
runs the generator. Also returns the model calls issued. -/
def generate_meal_plan_route (enableLLM : Bool) (vres : ValidatorResult)
    (env : GenEnv) (today : Nat) (planId : String) (query : String) :
    Except HTTPError MealPlanResponse × List GenCall :=
  match parse enableLLM vres query with
  | .error m => (.error ⟨400, "Invalid request: " ++ m⟩, [])
  | .ok p =>
      let r := generate env today planId p
      (.ok r.1, r.2)

/-! ## Concrete fixtures used to instantiate the theorems -/

/-- A validator result carrying no model output (all fields absent). -/
def noModelOutput : ValidatorResult :=
  { validated := { duration_days := none, dietary_restrictions := none,
                   preferences := none, special_requirements := none },
    additional_warnings := [], llm_logging := baseLLMLogging }

/-- An environment in which every model call raises and the cache is empty. -/
def envAllFail : GenEnv :=
  { cached := none,
    dayCall := fun _ => .error "connection error",
    singleMeal := fun _ _ => .error "connection error",
    genAt := "2025-10-08T12:00:00Z" }

/-- A sample stored (cached) response. -/
def storedSample : MealPlanResponse :=
  { meal_plan_id := "11111111-2222-3333-4444-555555555555",
    duration_days := 1,
    generated_at := "2025-10-01T00:00:00Z",
    meal_plan := [⟨1, "2025-10-01", [placeholder_recipe "breakfast"]⟩],
    summary := { total_meals := 1, dietary_compliance := ["vegan"],
                 estimated_cost := "$3-5", avg_prep_time := "15 mins" },
    warnings := [],
    query_validation_llm_logging := some baseLLMLogging,
    meal_generation_llm_logging := none,
    total_llm_logging := none }

/-- An environment whose cache holds `storedSample`. -/
def envHit : GenEnv :=
  { cached := some storedSample,
    dayCall := fun _ => .error "unused",
    singleMeal := fun _ _ => .error "unused",
    genAt := "2025-10-08T12:00:00Z" }

/-- Sample parsed parameters with fresh query-validation metrics. -/
def paramsSample : ParsedQueryParams :=
  { duration_days := 1, dietary_restrictions := ["vegan"], preferences := [],
    special_requirements := [], warnings := [],
    llm_logging := some { tokens_prompt := 11, tokens_completion := 4, tokens_total := 15,
                          llm_latency_ms := 120, enabled := true, error := none } }

/-- A well-formed dinner meal as a model could return it. -/
def dinnerSample : Meal :=
  { meal_type := "dinner", recipe_name := "Lentil Stew",
    description := "A hearty lentil stew.", ingredients := ["lentils", "carrots"],
    nutritional_info := { calories := 420, protein := 22, carbs := 60, fat := 9 },
    preparation_time := "35 mins", instructions := "Simmer everything.",
    source := "AI Generated" }

/-- An environment whose day-level call succeeds but returns a single dinner
meal instead of the requested meal set. -/
def envOneDinner : GenEnv :=
  { cached := none,
    dayCall := fun _ => .ok { meals := [Payload.good dinnerSample], metrics := none },
    singleMeal := fun _ _ => .error "unused",
    genAt := "2025-10-08T12:00:00Z" }

/-- A validator result whose model output adds `keto` and `quick` to the
regex findings of `"vegan meals for 3 days"`. -/
def vresAdd : ValidatorResult :=
  { validated := { duration_days := some 3, dietary_restrictions := some ["vegan", "keto"],
                   preferences := none, special_requirements := some ["quick"] },
    additional_warnings := [⟨"synonym_inference", "Mapped fast to quick"⟩],
    llm_logging := { tokens_prompt := 200, tokens_completion := 40, tokens_total := 240,
                     llm_latency_ms := 800, enabled := true, error := none } }

/-- The result of `parse true vresAdd "vegan meals for 3 days"`. -/
def p3 : ParsedQueryParams :=
  { duration_days := 3,
    dietary_restrictions := ["vegan", "keto"],
    preferences := [],
    special_requirements := ["quick"],
    warnings := [wPreferencesUnspecified, wSpecialUnspecified,
                 ⟨"synonym_inference", "Mapped fast to quick"⟩],
    llm_logging := some vresAdd.llm_logging }

/-- The result of `parse false noModelOutput "10 day meal plan"`. -/
def p10cap : ParsedQueryParams :=
  { duration_days := 7,
    dietary_restrictions := [],
    preferences := [],
    special_requirements := [],
    warnings := [wDaysCapped 10, wDietaryUnspecified, wPreferencesUnspecified,
                 wSpecialUnspecified],
    llm_logging := some baseLLMLogging }

/-- The result of `parse false noModelOutput "plan my meals"`. -/
def pNoDays : ParsedQueryParams :=
  { duration_days := 7,
    dietary_restrictions := [],
    preferences := [],
    special_requirements := [],
    warnings := [wDaysUnspecified, wDietaryUnspecified, wPreferencesUnspecified,
                 wSpecialUnspecified],
    llm_logging := some baseLLMLogging }

/-- The result of parsing `"3 day vegan plan"` after a validator model-call
failure with message `"timeout"` and latency 5. -/
def pTimeout : ParsedQueryParams :=
  { duration_days := 3,
    dietary_restrictions := ["vegan"],
    preferences := [],
    special_requirements := [],
    warnings := [wPreferencesUnspecified, wSpecialUnspecified],
    llm_logging := some { tokens_prompt := 0, tokens_completion := 0, tokens_total := 0,
                          llm_latency_ms := 5, enabled := true, error := some "timeout" } }

/-! ## Helper lemmas -/

/-- Totality of the lexicographic comparison. -/
theorem charListLe_total : ∀ a b : List Char, charListLe a b = true ∨ charListLe b a = true
  | [], _ => Or.inl rfl
  | _ :: _, [] => Or.inr rfl
  | c :: cs, d :: ds => by
      by_cases h : c = d
      · subst h
        simpa only [charListLe, if_pos rfl] using charListLe_total cs ds
      · have hne : c.toNat ≠ d.toNat := fun he => h (Char.ext (UInt32.toNat.inj he))
        simp only [charListLe, if_neg h, if_neg (Ne.symm h)]
        rcases Nat.lt_or_ge c.toNat d.toNat with hlt | hge
        · exact Or.inl (decide_eq_true hlt)
        · exact Or.inr (decide_eq_true (lt_of_le_of_ne hge (fun he => hne he.symm)))

/-- Transitivity of the lexicographic comparison. -/
theorem charListLe_trans : ∀ a b c : List Char,
    charListLe a b = true → charListLe b c = true → charListLe a c = true
  | [], _, _, _, _ => rfl
  | _ :: _, [], _, h1, _ => by cases h1
  | _ :: _, _ :: _, [], _, h2 => by cases h2
  | x :: xs, y :: ys, z :: zs, h1, h2 => by
      simp only [charListLe] at h1 h2 ⊢
      by_cases hxy : x = y
      · subst hxy
        by_cases hxz : x = z
        · subst hxz
          rw [if_pos rfl] at h1 h2 ⊢
          exact charListLe_trans _ _ _ h1 h2
        · rw [if_pos rfl] at h1
          rw [if_neg hxz] at h2 ⊢
          exact h2
      · by_cases hyz : y = z
        · subst hyz
          rw [if_neg hxy] at h1 ⊢
          exact h1
        · rw [if_neg hxy] at h1
          rw [if_neg hyz] at h2
          have l1 := of_decide_eq_true h1
          have l2 := of_decide_eq_true h2
          by_cases hxz : x = z
          · exfalso
            subst hxz
            have hne : x.toNat ≠ y.toNat := fun he => hxy (Char.ext (UInt32.toNat.inj he))
            omega
          · rw [if_neg hxz]
            exact decide_eq_true (Nat.lt_trans l1 l2)

/-- Antisymmetry of the lexicographic comparison. -/
theorem charListLe_antisymm : ∀ a b : List Char,
    charListLe a b = true → charListLe b a = true → a = b
  | [], [], _, _ => rfl
  | [], _ :: _, _, h2 => by cases h2
  | _ :: _, [], h1, _ => by cases h1
  | x :: xs, y :: ys, h1, h2 => by
      simp only [charListLe] at h1 h2
      by_cases hxy : x = y
      · subst hxy
        rw [if_pos rfl] at h1 h2
        rw [charListLe_antisymm _ _ h1 h2]
      · rw [if_neg hxy] at h1
        rw [if_neg (Ne.symm hxy)] at h2
        have l1 := of_decide_eq_true h1
        have l2 := of_decide_eq_true h2
        omega

instance : IsTotal String strLe :=
  ⟨fun a b => charListLe_total a.data b.data⟩

instance : IsTrans String strLe :=
  ⟨fun a b c => charListLe_trans a.data b.data c.data⟩

instance : IsAntisymm String strLe :=
  ⟨fun a b h1 h2 => by
    cases a
    cases b
    exact congrArg String.mk (charListLe_antisymm _ _ h1 h2)⟩

/-- Python `sorted` maps permutation-equal string lists to the same list. -/
theorem sortStrings_eq_of_perm {l1 l2 : List String} (h : l1.Perm l2) :
    sortStrings l1 = sortStrings l2 := by
  apply List.eq_of_perm_of_sorted (r := strLe)
  · exact ((List.perm_insertionSort _ l1).trans h).trans (List.perm_insertionSort _ l2).symm
  · exact List.sorted_insertionSort _ l1
  · exact List.sorted_insertionSort _ l2

/-- A successful conflict validation always returns the empty warning list
(the locally built warnings are discarded by the raise). -/
theorem validate_restrictions_ok {rs : List String} {cw : List Warning}
    (h : validate_restrictions rs = .ok cw) : cw = [] := by
  unfold validate_restrictions at h
  cases hf : conflictPairs.find?
      (fun c => rs.contains c.1.1 && rs.contains c.1.2) with
  | none => rw [hf] at h; injection h with h; exact h.symm
  | some c => rw [hf] at h; cases h

/-- A conflicting pair present in the restriction list makes the conflict
validation raise one of the three conflict messages. -/
theorem validate_restrictions_error_of_conflict {rs : List String}
    {c : (String × String) × String} (hc : c ∈ conflictPairs)
    (h1 : rs.contains c.1.1 = true) (h2 : rs.contains c.1.2 = true) :
    ∃ m, m ∈ conflictPairs.map (fun x => x.2) ∧ validate_restrictions rs = .error m := by
  have hex : ∃ x, x ∈ conflictPairs ∧
      (rs.contains x.1.1 && rs.contains x.1.2) = true :=
    ⟨c, hc, by rw [h1, h2]; rfl⟩
  rw [← List.find?_isSome] at hex
  cases hf : conflictPairs.find?
      (fun c => rs.contains c.1.1 && rs.contains c.1.2) with
  | none => rw [hf] at hex; cases hex
  | some c2 =>
      refine ⟨c2.2, List.mem_map_of_mem _ (List.mem_of_find?_eq_some hf), ?_⟩
      unfold validate_restrictions
      rw [hf]

/-- Case analysis of a successful `parse`. -/
theorem parse_ok_cases {enableLLM : Bool} {vres : ValidatorResult} {query : String}
    {p : ParsedQueryParams} (hp : parse enableLLM vres query = .ok p) :
    (enableLLM = true ∧ p = mergeResult (regexExtract query) vres []) ∨
    (enableLLM = false ∧ p = plainParams (regexExtract query) []) := by
  unfold parse at hp
  cases hf : validate_restrictions (regexExtract query).dietary with
  | error m => rw [hf] at hp; cases hp
  | ok cw =>
      have hcw := validate_restrictions_ok hf
      subst hcw
      rw [hf] at hp
      cases hLLM : enableLLM with
      | true => rw [hLLM] at hp; simp at hp; exact Or.inl ⟨rfl, hp.symm⟩
      | false => rw [hLLM] at hp; simp at hp; exact Or.inr ⟨rfl, hp.symm⟩

/-- The add-only merge preserves membership of the initial extraction. -/
theorem mem_mergeAdd_left {x : String} {i v : List String} (hx : x ∈ i) :
    x ∈ mergeAdd i v := by
  unfold mergeAdd
  simp only []
  split
  · exact hx
  · exact List.mem_append_left _ (List.mem_dedup.2 hx)

/-- Merging a list with itself changes nothing. -/
theorem mergeAdd_self (l : List String) : mergeAdd l l = l := by
  unfold mergeAdd
  have h : l.filter (fun x => !(l.contains x)) = [] := by
    rw [List.filter_eq_nil_iff]
    intro a ha
    simp only [List.contains, List.elem_iff.2 ha, Bool.not_true, Bool.false_eq_true,
      not_false_eq_true]
  rw [h]
  rfl

/-- The generated day plan always carries the requested day index and date,
whichever branch of the fallback cascade produced it. -/
theorem generate_day_plan_day_date (env : GenEnv) (d : Nat) (date : String)
    (mts : List String) :
    (generate_day_plan env d date mts).1.day = d ∧
    (generate_day_plan env d date mts).1.date = date := by
  unfold generate_day_plan
  cases env.dayCall d <;> simp

/-! ## C6 — cache key as a function of the normalized constraint set -/

/-- C6 (amended): the cache key is invariant under reordering of the three
constraint lists with the same duration: permutation-equal restriction,
preference and special-requirement lists produce identical canonical
serializations and hence identical md5 cache keys. (Duplicate removal is NOT
performed by the source — see the counterexample.) -/
theorem c6_cache_key_order_insensitive {r1 r2 p1 p2 s1 s2 : List String}
    (d : Nat) (hr : r1.Perm r2) (hp : p1.Perm p2) (hs : s1.Perm s2) :
    make_cache_key r1 p1 d s1 = make_cache_key r2 p2 d s2 := by
  unfold make_cache_key
  rw [sortStrings_eq_of_perm hr, sortStrings_eq_of_perm hp, sortStrings_eq_of_perm hs]

/-- Witness for C6 at concrete reordered constraint lists. -/
theorem c6_cache_key_order_insensitive_witness :
    make_cache_key ["vegan", "gluten-free"] ["low-carb"] 5 ["quick", "easy"]
      = make_cache_key ["gluten-free", "vegan"] ["low-carb"] 5 ["easy", "quick"] :=
  c6_cache_key_order_insensitive 5 (by decide) (by decide) (by decide)

/-- Counterexample for C6 as stated: two requests whose restriction lists are
equal up to duplicate removal (`["vegan", "vegan"]` vs `["vegan"]`) do NOT get
the same cache key — `sorted` does not deduplicate, so the canonical
serializations (the md5 preimages) differ. -/
theorem c6_cache_key_duplicates_cex :
    make_cache_key ["vegan", "vegan"] [] 7 [] ≠ make_cache_key ["vegan"] [] 7 [] := by
  decide

/-! ## C7 — cache-hit frame -/

/-- C7: on a cache hit, the stored plan body is returned with only the current
request query-validation metrics merged in (and only when that record is
non-empty); every other field is exactly as stored and no day- or
single-meal model call is issued. -/
theorem c7_cache_hit_frame (env : GenEnv) (today : Nat) (planId : String)
    (params : ParsedQueryParams) (stored : MealPlanResponse)
    (hc : env.cached = some stored) :
    (generate env today planId params).2 = [] ∧
    (generate env today planId params).1.meal_plan_id = stored.meal_plan_id ∧
    (generate env today planId params).1.duration_days = stored.duration_days ∧
    (generate env today planId params).1.generated_at = stored.generated_at ∧
    (generate env today planId params).1.meal_plan = stored.meal_plan ∧
    (generate env today planId params).1.summary = stored.summary ∧
    (generate env today planId params).1.warnings = stored.warnings ∧
    (generate env today planId params).1.meal_generation_llm_logging
      = stored.meal_generation_llm_logging ∧
    (generate env today planId params).1.total_llm_logging = stored.total_llm_logging ∧
    (generate env today planId params).1.query_validation_llm_logging
      = (match params.llm_logging with
         | some l => some l
         | none => stored.query_validation_llm_logging) := by
  unfold generate
  rw [hc]
  cases params.llm_logging <;> simp

/-- C10: on a cache miss, a run of duration `d` produces exactly `d` day
plans, with 1-based day indices in order and consecutive dates starting at
the UTC date of the run. -/
theorem c10_days_and_dates (env : GenEnv) (today : Nat) (planId : String)
    (params : ParsedQueryParams) (hc : env.cached = none) :
    (generate env today planId params).1.meal_plan.length = params.duration_days ∧
    ∀ i (h : i < (generate env today planId params).1.meal_plan.length),
      ((generate env today planId params).1.meal_plan.get ⟨i, h⟩).day = i + 1 ∧
      ((generate env today planId params).1.meal_plan.get ⟨i, h⟩).date
        = formatYMD (today + i) := by
  unfold generate
  rw [hc]
  refine ⟨by simp, ?_⟩
  intro i h
  rw [List.get_eq_getElem]
  simp only [List.getElem_map, List.getElem_range', Nat.one_mul]
  have harith : 1 + i - 1 = i := by omega
  rw [harith]
  have hdd := generate_day_plan_day_date env (1 + i) (formatYMD (today + i))
    (mealTypesForDay (1 + i))
  exact ⟨by rw [hdd.1]; omega, hdd.2⟩

/-- Witness for C7: a concrete cache hit returns the stored body unchanged
except for the merged query-validation metrics, with no model calls. -/
theorem c7_cache_hit_frame_witness :
    envHit.cached = some storedSample ∧
    (generate envHit 0 "pid2" paramsSample).2 = [] ∧
    (generate envHit 0 "pid2" paramsSample).1.meal_plan = storedSample.meal_plan :=
  ⟨rfl, (c7_cache_hit_frame envHit 0 "pid2" paramsSample storedSample rfl).1,
   (c7_cache_hit_frame envHit 0 "pid2" paramsSample storedSample rfl).2.2.2.2.1⟩

/-- Witness for C10: a concrete cache-miss run of duration 1 yields one day. -/
theorem c10_days_and_dates_witness :
    envAllFail.cached = none ∧
    (generate envAllFail 20369 "pid" paramsSample).1.meal_plan.length
      = paramsSample.duration_days :=
  ⟨rfl, (c10_days_and_dates envAllFail 20369 "pid" paramsSample rfl).1⟩

/-! ## C2 — fallback cascade of the Day Plan Generator -/

/-- C2: the Day Plan Generator is total (its result type carries no error);
when the whole-day model call fails, the day still gets exactly one meal per
required meal type, and every slot whose single-meal fallback call also fails
receives the deterministic placeholder meal, whose recipe name is
`Simple <Type> Bowl` with source tag `Placeholder`. -/
theorem c2_fallback_cascade (env : GenEnv) (d : Nat) (date : String)
    (mts : List String) (e : String) (hday : env.dayCall d = .error e) :
    (generate_day_plan env d date mts).1.meals.length = mts.length ∧
    (∀ i (hi : i < mts.length)
       (hm : i < (generate_day_plan env d date mts).1.meals.length) (e2 : String),
       env.singleMeal d i = .error e2 →
       (generate_day_plan env d date mts).1.meals.get ⟨i, hm⟩
         = placeholder_recipe (mts.get ⟨i, hi⟩)) ∧
    (∀ mt, (placeholder_recipe mt).recipe_name = "Simple " ++ pyTitle mt ++ " Bowl" ∧
           (placeholder_recipe mt).source = "Placeholder") := by
  unfold generate_day_plan
  rw [hday]
  refine ⟨by simp, ?_, fun mt => ⟨rfl, rfl⟩⟩
  intro i hi hm e2 hsm
  rw [List.get_eq_getElem, List.get_eq_getElem]
  simp only [List.getElem_map, List.getElem_enum]
  unfold fallbackMealFor
  rw [hsm]

/-- Witness for C2 at a concrete always-failing environment. -/
theorem c2_fallback_cascade_witness :
    envAllFail.dayCall 1 = .error "connection error" ∧
    (generate_day_plan envAllFail 1 "2025-10-08" (mealTypesForDay 1)).1.meals.length
      = (mealTypesForDay 1).length ∧
    ((placeholder_recipe "lunch").recipe_name = "Simple " ++ pyTitle "lunch" ++ " Bowl" ∧
     (placeholder_recipe "lunch").source = "Placeholder") :=
  ⟨rfl,
   (c2_fallback_cascade envAllFail 1 "2025-10-08" (mealTypesForDay 1)
     "connection error" rfl).1,
   (c2_fallback_cascade envAllFail 1 "2025-10-08" (mealTypesForDay 1)
     "connection error" rfl).2.2 "lunch"⟩

/-! ## C5 — meal types per day -/

/-- C5 (amended): the meal types REQUESTED for each day are deterministic and
not model-decided — exactly breakfast, lunch, dinner for odd day indices and
additionally a snack for even ones — and the finalized meal list realizes
exactly these types whenever the whole-day call fails and no fallback call
returns a validated meal (the placeholder path). When the day-level call
succeeds, the finalized list mirrors whatever meal objects the model
returned, which may deviate from the requested set (see the
counterexample). -/
theorem c5_requested_meal_types (env : GenEnv) (d : Nat) (date : String) (e : String) :
    (d % 2 = 1 → mealTypesForDay d = ["breakfast", "lunch", "dinner"]) ∧
    (d % 2 = 0 → mealTypesForDay d = ["breakfast", "lunch", "dinner", "snack"]) ∧
    (env.dayCall d = .error e →
     (∀ slot m, env.singleMeal d slot ≠ .ok (.good m)) →
     (generate_day_plan env d date (mealTypesForDay d)).1.meals.map
         (fun m => m.meal_type) = mealTypesForDay d) := by
  refine ⟨fun h => by simp [mealTypesForDay, h], fun h => by simp [mealTypesForDay, h], ?_⟩
  intro hday hfail
  unfold generate_day_plan
  rw [hday]
  show ((((mealTypesForDay d).enum.map
      (fun p => fallbackMealFor env d p.1 p.2)).map (fun x => x.1)).map
        (fun m => m.meal_type)) = mealTypesForDay d
  rw [List.map_map, List.map_map]
  refine (List.map_congr_left ?_).trans (List.enum_map_snd _)
  intro p hp
  simp only [Function.comp_apply]
  unfold fallbackMealFor
  cases hsm : env.singleMeal d p.1 with
  | error e2 => rfl
  | ok pay =>
      cases pay with
      | good m => exact absurd hsm (hfail p.1 m)
      | bad t => rfl

/-- Witness for C5 at a concrete even day with the all-placeholder path. -/
theorem c5_requested_meal_types_witness :
    mealTypesForDay 2 = ["breakfast", "lunch", "dinner", "snack"] ∧
    (generate_day_plan envAllFail 2 "2025-10-09" (mealTypesForDay 2)).1.meals.map
        (fun m => m.meal_type) = mealTypesForDay 2 :=
  ⟨(c5_requested_meal_types envAllFail 2 "2025-10-09" "connection error").2.1 rfl,
   (c5_requested_meal_types envAllFail 2 "2025-10-09" "connection error").2.2 rfl
     (fun _ _ h => Except.noConfusion h)⟩

/-- Counterexample for C5 as stated: on (odd) day 1, a successful day-level
model response containing a single valid dinner meal is finalized as-is, so
the meal types present are `["dinner"]`, not breakfast, lunch, dinner — the
finalized meal set is model-decided on the primary path. -/
theorem c5_model_decides_types_cex :
    (generate_day_plan envOneDinner 1 "2025-10-06" (mealTypesForDay 1)).1.meals.map
        (fun m => m.meal_type) = ["dinner"] ∧
    ["dinner"] ≠ ["breakfast", "lunch", "dinner"] :=
  ⟨rfl, by decide⟩

/-! ## Warning-category lemmas for the parse-level claims -/

/-- The regex warning list contains a `days_capped_at_7` warning exactly when
the extracted duration exceeded 7. -/
theorem capped_mem_regexWarnings (e : RegexExtraction) :
    ("days_capped_at_7" ∈ (regexWarnings e).map (fun w => w.category)) ↔ 7 < e.duration0 := by
  unfold regexWarnings wDaysUnspecified wDaysCapped wDietaryUnspecified
    wPreferencesUnspecified wSpecialUnspecified
  split_ifs <;> simp_all

/-- When no duration was explicit, the regex warnings include
`days_unspecified`. -/
theorem unspecified_mem_regexWarnings (e : RegexExtraction) (h : e.explicit = false) :
    "days_unspecified" ∈ (regexWarnings e).map (fun w => w.category) := by
  unfold regexWarnings
  simp [h, wDaysUnspecified]

/-- Categories surviving the filter of the merge step come from the model
warnings. -/
theorem mem_map_of_mem_map_filter {x : String} {q : Warning → Bool} {l : List Warning}
    (h : x ∈ (l.filter q).map (fun w => w.category)) :
    x ∈ l.map (fun w => w.category) := by
  rcases List.mem_map.1 h with ⟨w, hw, hx⟩
  exact hx ▸ List.mem_map_of_mem _ (List.mem_of_mem_filter hw)

/-- The `duration_days` field of the merge result, as an equation. -/
theorem mergeResult_duration_days (e : RegexExtraction) (vres : ValidatorResult)
    (cw : List Warning) :
    (mergeResult e vres cw).duration_days =
      if vres.validated.duration_days.getD (regexDuration e) ≠ regexDuration e
          ∧ (7 < regexDuration e ∨ regexDuration e < 1)
        then vres.validated.duration_days.getD (regexDuration e)
        else regexDuration e := rfl

/-- The `warnings` field of the merge result, as an equation. -/
theorem mergeResult_warnings (e : RegexExtraction) (vres : ValidatorResult)
    (cw : List Warning) :
    (mergeResult e vres cw).warnings =
      (regexWarnings e ++ cw) ++ vres.additional_warnings.filter
        (fun w => !(((regexWarnings e ++ cw).map (fun w => w.category)).contains w.category)) := rfl

/-! ## C1 — conflicting restrictions are rejected before generation -/

/-- C1: whenever the extracted dietary restrictions contain both members of a
conflicting pair, parsing raises a `ValueError` carrying one of the three
conflict messages, the route maps it to a 400 client error with that message
in the detail, and no day- or single-meal generation call is issued (the call
log is empty and no plan is returned). -/
theorem c1_conflict_client_error (enableLLM : Bool) (vres : ValidatorResult)
    (env : GenEnv) (today : Nat) (planId : String) (query : String)
    {c : (String × String) × String} (hc : c ∈ conflictPairs)
    (h1 : (regexExtract query).dietary.contains c.1.1 = true)
    (h2 : (regexExtract query).dietary.contains c.1.2 = true) :
    ∃ m, m ∈ conflictPairs.map (fun x => x.2) ∧
      generate_meal_plan_route enableLLM vres env today planId query
        = (.error ⟨400, "Invalid request: " ++ m⟩, []) := by
  obtain ⟨m, hm, herr⟩ := validate_restrictions_error_of_conflict hc h1 h2
  refine ⟨m, hm, ?_⟩
  unfold generate_meal_plan_route parse
  rw [herr]

/-! ## C3 — the merge is one-directional -/

/-- C3: for every model output, the final extraction is a superset of the
regex extraction on each of the three set fields, and an in-range (1..7)
regex-extracted duration is preserved even when the model suggests a
different value. -/
theorem c3_merge_one_directional (enableLLM : Bool) (vres : ValidatorResult)
    (query : String) (p : ParsedQueryParams)
    (hp : parse enableLLM vres query = .ok p) :
    (∀ x ∈ (regexExtract query).dietary, x ∈ p.dietary_restrictions) ∧
    (∀ x ∈ (regexExtract query).prefs, x ∈ p.preferences) ∧
    (∀ x ∈ (regexExtract query).special, x ∈ p.special_requirements) ∧
    (1 ≤ (regexExtract query).duration0 → (regexExtract query).duration0 ≤ 7 →
      p.duration_days = (regexExtract query).duration0) := by
  have hdur : 1 ≤ (regexExtract query).duration0 → (regexExtract query).duration0 ≤ 7 →
      regexDuration (regexExtract query) = (regexExtract query).duration0 := by
    intro ha hb
    unfold regexDuration
    split <;> omega
  rcases parse_ok_cases hp with ⟨_, hpeq⟩ | ⟨_, hpeq⟩
  · subst hpeq
    refine ⟨fun x hx => mem_mergeAdd_left hx, fun x hx => mem_mergeAdd_left hx,
      fun x hx => mem_mergeAdd_left hx, ?_⟩
    intro ha hb
    rw [mergeResult_duration_days, hdur ha hb]
    have hcond : ¬((vres.validated.duration_days.getD (regexExtract query).duration0
        ≠ (regexExtract query).duration0)
        ∧ (7 < (regexExtract query).duration0 ∨ (regexExtract query).duration0 < 1)) := by
      rintro ⟨-, h7 | h1⟩ <;> omega
    rw [if_neg hcond]
  · subst hpeq
    exact ⟨fun x hx => hx, fun x hx => hx, fun x hx => hx, fun ha hb => hdur ha hb⟩

/-! ## C4 — duration normalization -/

/-- C4 (amended): a regex-extracted duration above 7 is capped to 7 with a
`days_capped_at_7` warning; when the extracted duration is at most 7, the
parser itself emits no cap warning (with LLM validation enabled, one can
appear only if the model itself supplies a warning of that category); and an
extracted duration of at least 1 is returned as `min duration 7`. The lower
bound of the documented 1..7 range is NOT enforced: an extracted duration of
0 is returned as 0 (see the counterexample). -/
theorem c4_duration_normalization (enableLLM : Bool) (vres : ValidatorResult)
    (query : String) (p : ParsedQueryParams)
    (hp : parse enableLLM vres query = .ok p) :
    (7 < (regexExtract query).duration0 →
       p.duration_days = 7 ∧ "days_capped_at_7" ∈ p.warnings.map (fun w => w.category)) ∧
    ((regexExtract query).duration0 ≤ 7 →
       (enableLLM = false ∨
        "days_capped_at_7" ∉ vres.additional_warnings.map (fun w => w.category)) →
       "days_capped_at_7" ∉ p.warnings.map (fun w => w.category)) ∧
    (1 ≤ (regexExtract query).duration0 →
       p.duration_days = min (regexExtract query).duration0 7) := by
  have hmin : 1 ≤ (regexExtract query).duration0 →
      regexDuration (regexExtract query) = min (regexExtract query).duration0 7 := by
    intro ha
    unfold regexDuration
    split <;> omega
  have hrange : 1 ≤ (regexExtract query).duration0 →
      ¬(7 < regexDuration (regexExtract query) ∨ regexDuration (regexExtract query) < 1) := by
    intro ha
    unfold regexDuration
    split <;> omega
  rcases parse_ok_cases hp with ⟨hT, hpeq⟩ | ⟨hF, hpeq⟩
  · subst hpeq
    refine ⟨?_, ?_, ?_⟩
    · intro h7
      refine ⟨?_, ?_⟩
      · rw [mergeResult_duration_days]
        have h1 : 1 ≤ (regexExtract query).duration0 := by omega
        rw [if_neg (fun hh => hrange h1 hh.2), hmin h1]
        omega
      · rw [mergeResult_warnings]
        simp only [List.map_append, List.mem_append]
        exact Or.inl (Or.inl ((capped_mem_regexWarnings _).2 h7))
    · intro h7 hside
      rw [mergeResult_warnings]
      simp only [List.map_append, List.mem_append]
      rintro ((hcap | hcap) | hcap)
      · exact absurd ((capped_mem_regexWarnings _).1 hcap) (by omega)
      · simp at hcap
      · rcases hside with hside | hside
        · rw [hT] at hside; cases hside
        · exact hside (mem_map_of_mem_map_filter hcap)
    · intro h1
      rw [mergeResult_duration_days]
      rw [if_neg (fun hh => hrange h1 hh.2)]
      exact hmin h1
  · subst hpeq
    refine ⟨?_, ?_, ?_⟩
    · intro h7
      constructor
      · show regexDuration (regexExtract query) = 7
        unfold regexDuration
        split <;> omega
      · show "days_capped_at_7" ∈ ((regexWarnings (regexExtract query)) ++ []).map
          (fun (w : Warning) => w.category)
        simp only [List.append_nil]
        exact (capped_mem_regexWarnings _).2 h7
    · intro h7 _
      show "days_capped_at_7" ∉ ((regexWarnings (regexExtract query)) ++ []).map
        (fun (w : Warning) => w.category)
      simp only [List.append_nil]
      intro hmem
      exact absurd ((capped_mem_regexWarnings _).1 hmem) (by omega)
    · intro h1
      exact hmin h1

/-- Counterexample for C4 as stated: the query `"plan meals for 0 days"`
parses with duration 0 — outside the documented 1..7 range — and no warning
or correction is applied on this path. -/
theorem c4_zero_duration_cex :
    (parse false noModelOutput "plan meals for 0 days").toOption.map
        (fun p => p.duration_days) = some 0 ∧ ¬(1 ≤ 0) :=
  ⟨by decide, by decide⟩

/-! ## C9 — default duration -/

/-- The extractor either reports an explicit duration or the default pair. -/
theorem extract_duration_cases (q : List Char) :
    extract_duration q = (7, false) ∨ (extract_duration q).2 = true := by
  unfold extract_duration
  cases scanNumThen dayTail q with
  | some n => exact Or.inr rfl
  | none =>
    cases scanNumThen weekTail q with
    | some n => exact Or.inr rfl
    | none =>
      by_cases h3 : hasSub ['w', 'e', 'e', 'k'] q = true
      · rw [if_pos h3]; exact Or.inr rfl
      · rw [if_neg h3]
        by_cases h4 : searchBounded nextWeekAlts q false = true
        · rw [if_pos h4]; exact Or.inr rfl
        · rw [if_neg h4]
          cases scanForOver q false with
          | some n => exact Or.inr rfl
          | none => exact Or.inl rfl

/-- The extractor returns 7 whenever it reports the duration as not
explicitly specified. -/
theorem extract_duration_default (q : List Char)
    (h : (extract_duration q).2 = false) : (extract_duration q).1 = 7 := by
  rcases extract_duration_cases q with he | he
  · rw [he]
  · rw [he] at h; cases h

/-- C9: a query in which no duration pattern matches defaults to 7 days with
the explicit flag false, and any successful parse of it reports duration 7
with a `days_unspecified` warning. -/
theorem c9_default_duration (enableLLM : Bool) (vres : ValidatorResult)
    (query : String) (p : ParsedQueryParams)
    (hnm : (extract_duration (query.data.map Char.toLower)).2 = false) :
    (extract_duration (query.data.map Char.toLower)).1 = 7 ∧
    (parse enableLLM vres query = .ok p →
      p.duration_days = 7 ∧ "days_unspecified" ∈ p.warnings.map (fun w => w.category)) := by
  have hd7 : (regexExtract query).duration0 = 7 := extract_duration_default _ hnm
  have hex : (regexExtract query).explicit = false := hnm
  have hcap : regexDuration (regexExtract query) = 7 := by
    unfold regexDuration
    rw [hd7]
    simp
  refine ⟨hd7, ?_⟩
  intro hp
  rcases parse_ok_cases hp with ⟨_, hpeq⟩ | ⟨_, hpeq⟩
  · subst hpeq
    refine ⟨?_, ?_⟩
    · rw [mergeResult_duration_days, hcap]
      rw [if_neg]
      rintro ⟨-, h7 | h1⟩ <;> omega
    · rw [mergeResult_warnings]
      simp only [List.map_append, List.mem_append]
      exact Or.inl (Or.inl (unspecified_mem_regexWarnings _ hex))
  · subst hpeq
    refine ⟨hcap, ?_⟩
    show "days_unspecified" ∈ ((regexWarnings (regexExtract query)) ++ []).map
      (fun (w : Warning) => w.category)
    simp only [List.append_nil]
    exact unspecified_mem_regexWarnings _ hex

/-! ## C8 — validator model-call failure degrades to the regex extraction -/

/-- C8: when the model call inside the validator raises, the validator never
raises itself (it is a total function): it returns the original extraction
unchanged with an error marker in its usage metrics, and the parse pipeline
completes with exactly the regex extraction and that marker attached. -/
theorem c8_validator_failure_degrades (query : String) (msg : String) (latency : Nat)
    (p : ParsedQueryParams) :
    (validate_and_enhance true (initialExtraction query) (.exn msg) latency).validated
      = initialExtraction query ∧
    (validate_and_enhance true (initialExtraction query) (.exn msg) latency).additional_warnings
      = [] ∧
    (validate_and_enhance true (initialExtraction query) (.exn msg) latency).llm_logging.error
      = some msg ∧
    (parse true (validate_and_enhance true (initialExtraction query) (.exn msg) latency) query
        = .ok p →
      p.duration_days = regexDuration (regexExtract query) ∧
      p.dietary_restrictions = (regexExtract query).dietary ∧
      p.preferences = (regexExtract query).prefs ∧
      p.special_requirements = (regexExtract query).special ∧
      p.llm_logging = some (validate_and_enhance true (initialExtraction query)
        (.exn msg) latency).llm_logging) := by
  refine ⟨rfl, rfl, rfl, ?_⟩
  intro hp
  rcases parse_ok_cases hp with ⟨_, hpeq⟩ | ⟨hF, _⟩
  · subst hpeq
    refine ⟨?_, ?_, ?_, ?_, rfl⟩
    · rw [mergeResult_duration_days]
      rw [if_neg]
      rintro ⟨hne, -⟩
      exact hne rfl
    · exact mergeAdd_self _
    · exact mergeAdd_self _
    · exact mergeAdd_self _
  · cases hF

/-! ## Witnesses for the parse-level claims -/

/-- Witness for C1: the conflicting query is rejected with the 400 client
error carrying the first conflict message, and no generation call is made. -/
theorem c1_conflict_client_error_witness :
    generate_meal_plan_route false noModelOutput envAllFail 0 "pid"
        "vegan and pescatarian meals"
      = (.error ⟨400, "Invalid request: Vegan and pescatarian are conflicting - vegan excludes all animal products including fish"⟩, []) := by
  have h := c1_conflict_client_error false noModelOutput envAllFail 0 "pid"
    "vegan and pescatarian meals"
    (c := (("vegan", "pescatarian"),
      "Vegan and pescatarian are conflicting - vegan excludes all animal products including fish"))
    (by decide) (by decide) (by decide)
  exact rfl

/-- Witness for C3 at a concrete model output that adds items. -/
theorem c3_merge_one_directional_witness :
    ("vegan" ∈ p3.dietary_restrictions) ∧
    p3.duration_days = (regexExtract "vegan meals for 3 days").duration0 :=
  ⟨(c3_merge_one_directional true vresAdd "vegan meals for 3 days" p3 rfl).1
     "vegan" (by decide),
   (c3_merge_one_directional true vresAdd "vegan meals for 3 days" p3 rfl).2.2.2
     (by decide) (by decide)⟩

/-- Witness for C4 at a concrete 10-day query. -/
theorem c4_duration_normalization_witness :
    (regexExtract "10 day meal plan").duration0 = 10 ∧
    p10cap.duration_days = 7 ∧
    "days_capped_at_7" ∈ p10cap.warnings.map (fun w => w.category) :=
  ⟨by decide,
   ((c4_duration_normalization false noModelOutput "10 day meal plan" p10cap rfl).1
      (by decide)).1,
   ((c4_duration_normalization false noModelOutput "10 day meal plan" p10cap rfl).1
      (by decide)).2⟩

/-- Witness for C9 at a concrete query with no duration pattern. -/
theorem c9_default_duration_witness :
    (extract_duration ("plan my meals".data.map Char.toLower)).1 = 7 ∧
    pNoDays.duration_days = 7 ∧
    "days_unspecified" ∈ pNoDays.warnings.map (fun w => w.category) :=
  ⟨(c9_default_duration false noModelOutput "plan my meals" pNoDays (by decide)).1,
   ((c9_default_duration false noModelOutput "plan my meals" pNoDays (by decide)).2 rfl).1,
   ((c9_default_duration false noModelOutput "plan my meals" pNoDays (by decide)).2 rfl).2⟩

/-- Witness for C8 at a concrete timed-out validation. -/
theorem c8_validator_failure_degrades_witness :
    (validate_and_enhance true (initialExtraction "3 day vegan plan")
        (.exn "timeout") 5).llm_logging.error = some "timeout" ∧
    pTimeout.duration_days = regexDuration (regexExtract "3 day vegan plan") ∧
    pTimeout.dietary_restrictions = (regexExtract "3 day vegan plan").dietary :=
  ⟨(c8_validator_failure_degrades "3 day vegan plan" "timeout" 5 pTimeout).2.2.1,
   ((c8_validator_failure_degrades "3 day vegan plan" "timeout" 5 pTimeout).2.2.2 rfl).1,
   ((c8_validator_failure_degrades "3 day vegan plan" "timeout" 5 pTimeout).2.2.2 rfl).2.1⟩

end MealPlanner
